import Mathlib

/-!
Shallow embedding of the pgx-mutex library (package `pgxmutex`): a distributed
lock built on PostgreSQL session-scoped advisory locks.  Each resource
identifier (an `int64`) has one process-wide Local Guard (a `sync.Mutex` stored
in a `singleton`), obtained from the global registry by `getSingleton`; the
`Mutex` handle first contends on this guard and then talks to the database.

Modelling choices:
* identifiers are `Int` (no arithmetic is performed on them, only equality and
  a zero test, so `int64` wrap-around cannot arise);
* the database connection (`conn` interface) is modelled by the response each
  of the three advisory-lock statements would receive on this call;
* each Go method call is mapped to a pure function returning a `GoExec`:
  the returned value, the state of the Local Guard afterwards, and the list of
  remote statements actually issued — or "blocked forever on the local guard"
  or a runtime panic (e.g. `sync.Mutex.Unlock` on an unlocked mutex);
* the global singleton registry is explicit state threaded through
  `getSingleton`, the options and `NewMutex`; object identity of a
  `singleton` is modelled by an allocation number `ref`.
-/

deriving instance DecidableEq for Except

namespace PgxMutex

/-- The three parameterized SQL statements the handle can issue over the
connection, each keyed by the resource identifier. -/
inductive RemoteStmt where
  | advisoryLock (id : Int)
  | tryAdvisoryLock (id : Int)
  | advisoryUnlock (id : Int)
deriving DecidableEq, Repr

/-- Behaviour of the `conn` interface for one call: the error (if any) that
`Exec "SELECT pg_advisory_lock($1)"` would report, the error (if any) that
`Exec "SELECT pg_advisory_unlock($1)"` would report, and the outcome of
`QueryRow "SELECT pg_try_advisory_lock($1)").Scan(&acquired)` — either a
scan/query error or the boolean the server returned. -/
structure Conn where
  advisoryLockErr : Option String
  advisoryUnlockErr : Option String
  tryAdvisoryLock : Except String Bool
deriving DecidableEq, Repr

/-- Result of running one Go method of the handle: a normal return carrying the
returned value, the held/free state of the Local Guard after the call and the
trace of remote statements issued, or blocking forever on the Local Guard, or
a runtime panic. -/
inductive GoExec (α : Type) where
  | ret (value : α) (guard : Bool) (trace : List RemoteStmt)
  | blocked (guard : Bool) (trace : List RemoteStmt)
  | panicked (msg : String) (guard : Bool) (trace : List RemoteStmt)
deriving DecidableEq, Repr

/-- Did the call return normally with a non-nil error value? -/
def GoExec.returnsError : GoExec (Option String) → Bool
  | .ret (some _) _ _ => true
  | _ => false

/-- Remote statements issued during the call. -/
def GoExec.remoteTrace {α : Type} : GoExec α → List RemoteStmt
  | .ret _ _ t => t
  | .blocked _ t => t
  | .panicked _ _ t => t

/-- State of the Local Guard after the call. -/
def GoExec.guardAfter {α : Type} : GoExec α → Bool
  | .ret _ g _ => g
  | .blocked g _ => g
  | .panicked _ g _ => g

/-- The `singleton` struct of src/internal.go: a per-identifier Local Guard.
Its `sync.Mutex` lock state is modelled separately (as the `guard : Bool`
argument of the handle operations); `ref` models object identity (the
allocation order inside the registry). -/
structure Singleton where
  ref : Nat
  id : Int
deriving DecidableEq, Repr

/-- The global `singletons` map together with an allocation counter that gives
each created `singleton` a distinct identity. -/
structure Registry where
  singletons : List Singleton
  next : Nat
deriving DecidableEq, Repr

/-- The registry at process start: `make(map[int64]*singleton)`. -/
def Registry.empty : Registry := ⟨[], 0⟩

/-- `getSingleton` of src/internal.go lines 24–35: look the identifier up in
the global map under `singletonsMutex` and return the existing guard, or
create, register and return a fresh one.  The whole lookup-or-insert runs
under `singletonsMutex`, so the sequential function is a faithful model of
the concurrent code. -/
def getSingleton (r : Registry) (id : Int) : Singleton × Registry :=
  match r.singletons.find? (fun s => s.id == id) with
  | some s => (s, r)
  | none =>
    let s : Singleton := ⟨r.next, id⟩
    (s, ⟨s :: r.singletons, r.next + 1⟩)

/-- The `Mutex` struct of src/mutex.go lines 148–152: a connection, a context
and a pointer to the per-identifier singleton (both `conn` and `so` are
nullable pointers before construction finishes). -/
structure Mutex where
  conn : Option Conn
  ctx : Unit
  so : Option Singleton
deriving DecidableEq, Repr

/-- The functional option type `Option func(*Mutex) error` of src/options.go
(named `MutexOption` here because `Option` is taken in Lean); options may read
and update the global singleton registry, so it is threaded through. -/
def MutexOption : Type := Mutex → Registry → Except String (Mutex × Registry)

/-- `WithConn` of src/options.go lines 26–31: set the custom DB connection. -/
def WithConn (c : Conn) : MutexOption :=
  fun m r => .ok ({ m with conn := some c }, r)

/-- `WithResourceID` of src/options.go lines 34–42: reject a zero identifier,
otherwise attach the identifier's singleton from the registry. -/
def WithResourceID (id : Int) : MutexOption :=
  fun m r =>
    if id = 0 then .error "resource ID must be provided"
    else
      let sr := getSingleton r id
      .ok ({ m with so := some sr.1 }, sr.2)

/-- `WithContext` of src/options.go lines 45–50 (contexts carry no information
relevant to the modelled behaviour, so the context type is `Unit`). -/
def WithContext (ctx : Unit) : MutexOption :=
  fun m r => .ok ({ m with ctx := ctx }, r)

/-- The option-application loop of `NewMutex`: apply each option in order,
returning the first error unchanged and applying none of the later options. -/
def applyOptions : List MutexOption → Mutex → Registry → Except String (Mutex × Registry)
  | [], m, r => .ok (m, r)
  | o :: os, m, r =>
    match o m r with
    | .error e => .error e
    | .ok mr => applyOptions os mr.1 mr.2

/-- `NewMutex` of src/mutex.go lines 155–177: start from the default
configuration, apply the options stopping at the first error, require a
connection, and if no singleton was attached derive one from
`time.Now().UnixNano()` — the `now` argument. -/
def NewMutex (options : List MutexOption) (now : Int) (r : Registry) :
    Except String (Mutex × Registry) :=
  match applyOptions options ⟨none, (), none⟩ r with
  | .error e => .error e
  | .ok (m, r₁) =>
    if m.conn = none then .error "database connection must be provided"
    else
      match m.so with
      | none =>
        let sr := getSingleton r₁ now
        .ok ({ m with so := some sr.1 }, sr.2)
      | some _ => .ok (m, r₁)

/-- `Mutex.GetResourceID` of src/mutex.go lines 185–187: `return m.so.id`.
On every handle returned by `NewMutex` the `so` pointer is set (proved in
`newMutex_so_isSome`), so the `none` default is unreachable there. -/
def Mutex.GetResourceID (m : Mutex) : Int :=
  match m.so with
  | some s => s.id
  | none => 0

/-- `Mutex.Lock` of src/mutex.go lines 190–197, for a handle whose singleton
identifier is `id`, whose connection behaves as `c`, with the Local Guard
state `guard` at entry: `m.so.Lock()` (blocks while the guard is held), then
`Exec "SELECT pg_advisory_lock($1)"`; on error release the guard and return
the wrapped error, otherwise return nil keeping the guard. -/
def Mutex.Lock (c : Conn) (id : Int) (guard : Bool) : GoExec (Option String) :=
  if guard then .blocked guard []
  else
    match c.advisoryLockErr with
    | some e => .ret (some ("failed to acquire lock: " ++ e)) false [.advisoryLock id]
    | none => .ret none true [.advisoryLock id]

/-- `Mutex.Unlock` of src/mutex.go lines 200–206:
`Exec "SELECT pg_advisory_unlock($1)"`; on error return the wrapped error
leaving the guard untouched; on success `m.so.Unlock()` — which, as a Go
`sync.Mutex`, panics when the guard is not held — then return nil. -/
def Mutex.Unlock (c : Conn) (id : Int) (guard : Bool) : GoExec (Option String) :=
  match c.advisoryUnlockErr with
  | some e => .ret (some ("failed to release lock: " ++ e)) guard [.advisoryUnlock id]
  | none =>
    if guard then .ret none false [.advisoryUnlock id]
    else .panicked "sync: unlock of unlocked mutex" guard [.advisoryUnlock id]

/-- `Mutex.TryLock` of src/mutex.go lines 210–226: `m.so.TryLock()`; when the
guard is already held return `(false, nil)` at once with no remote statement;
otherwise issue `pg_try_advisory_lock` — on a query error release the guard
and return the wrapped error, on `acquired = false` release the guard, and
return `acquired` with a nil error. -/
def Mutex.TryLock (c : Conn) (id : Int) (guard : Bool) : GoExec (Bool × Option String) :=
  if guard then .ret (false, none) guard []
  else
    match c.tryAdvisoryLock with
    | .error e =>
      .ret (false, some ("failed to attempt lock acquisition: " ++ e)) false
        [.tryAdvisoryLock id]
    | .ok acquired =>
      if acquired then .ret (true, none) true [.tryAdvisoryLock id]
      else .ret (false, none) false [.tryAdvisoryLock id]

/-- The `SyncMutex` struct of src/unnamed/part_000: a wrapper holding the
underlying handle. -/
structure SyncMutex where
  m : Mutex
deriving DecidableEq, Repr

/-- `NewSyncMutex` of src/unnamed/part_000 lines 7–13: build the underlying
`Mutex`, passing a construction error through unchanged. -/
def NewSyncMutex (options : List MutexOption) (now : Int) (r : Registry) :
    Except String (SyncMutex × Registry) :=
  match NewMutex options now r with
  | .error e => .error e
  | .ok (m, r₁) => .ok (⟨m⟩, r₁)

/-- `SyncMutex.Lock` of src/unnamed/part_000 lines 15–19: call the underlying
`Mutex.Lock` and panic with the error when it is non-nil. -/
def SyncMutex.Lock (c : Conn) (id : Int) (guard : Bool) : GoExec Unit :=
  match Mutex.Lock c id guard with
  | .ret none g t => .ret () g t
  | .ret (some e) g t => .panicked e g t
  | .blocked g t => .blocked g t
  | .panicked e g t => .panicked e g t

/-- `SyncMutex.TryLock` of src/unnamed/part_000 lines 21–27: call the
underlying `Mutex.TryLock`, panic with a non-nil error, otherwise return the
boolean. -/
def SyncMutex.TryLock (c : Conn) (id : Int) (guard : Bool) : GoExec Bool :=
  match Mutex.TryLock c id guard with
  | .ret (res, none) g t => .ret res g t
  | .ret (_, some e) g t => .panicked e g t
  | .blocked g t => .blocked g t
  | .panicked e g t => .panicked e g t

/-- `SyncMutex.Unlock` of src/unnamed/part_000 lines 29–33: call the
underlying `Mutex.Unlock` and panic with the error when it is non-nil. -/
def SyncMutex.Unlock (c : Conn) (id : Int) (guard : Bool) : GoExec Unit :=
  match Mutex.Unlock c id guard with
  | .ret none g t => .ret () g t
  | .ret (some e) g t => .panicked e g t
  | .blocked g t => .blocked g t
  | .panicked e g t => .panicked e g t

/-! Concrete connection behaviours used by witnesses and counterexamples. -/

/-- A connection on which every statement succeeds and the try-acquire
reports `true`. -/
def connOk : Conn := ⟨none, none, .ok true⟩

/-- A connection whose `pg_advisory_lock` statement fails. -/
def connLockErr : Conn := ⟨some "boom", none, .ok true⟩

/-- A connection whose `pg_advisory_unlock` statement fails. -/
def connUnlockErr : Conn := ⟨none, some "net down", .ok true⟩

/-- A connection whose `pg_try_advisory_lock` reports `false` (contended). -/
def connTryFalse : Conn := ⟨none, none, .ok false⟩

/-- A connection whose `pg_try_advisory_lock` query errors. -/
def connTryErr : Conn := ⟨none, none, .error "query failed"⟩

/-- Claim C1: when the remote acquire statement of `Lock()` errors, `Lock()`
releases the Local Guard before returning the wrapped error — the guard is
free in the outcome, so a failed remote acquire never leaves the guard held
by this handle. -/
theorem lock_remote_error_releases_guard (c : Conn) (id : Int) (e : String)
    (h : c.advisoryLockErr = some e) :
    Mutex.Lock c id false =
      .ret (some ("failed to acquire lock: " ++ e)) false [.advisoryLock id] := by
  simp [Mutex.Lock, h]

/-- Witness for C1 at a concrete failing connection. -/
theorem lock_remote_error_releases_guard_witness :
    connLockErr.advisoryLockErr = some "boom" ∧
    Mutex.Lock connLockErr 42 false =
      .ret (some ("failed to acquire lock: " ++ "boom")) false [.advisoryLock 42] :=
  ⟨rfl, lock_remote_error_releases_guard connLockErr 42 "boom" rfl⟩

/-- Claim C2 counterexample: on a handle that does not hold the lock (its
Local Guard is free), with a remote release that succeeds, `Unlock()` does
not return an error — it panics releasing the free guard — and it does issue
the remote release statement, contradicting the claim at this input. -/
theorem unlock_not_held_counterexample :
    (Mutex.Unlock connOk 42 false).returnsError = false ∧
    Mutex.Unlock connOk 42 false =
      .panicked "sync: unlock of unlocked mutex" false [.advisoryUnlock 42] := by
  exact ⟨rfl, rfl⟩

/-- Claim C2 (amended): Unlock on a non-holding handle still issues the
remote release statement; when that statement errors, the wrapped error is
returned with the guard left free; when it succeeds, the code panics on the
free guard (a caller-contract violation surfaced as a `sync.Mutex` panic)
rather than returning an error. -/
theorem unlock_not_held (c : Conn) (id : Int) :
    (∀ e, c.advisoryUnlockErr = some e →
      Mutex.Unlock c id false =
        .ret (some ("failed to release lock: " ++ e)) false [.advisoryUnlock id]) ∧
    (c.advisoryUnlockErr = none →
      Mutex.Unlock c id false =
        .panicked "sync: unlock of unlocked mutex" false [.advisoryUnlock id]) := by
  constructor
  · intro e h; simp [Mutex.Unlock, h]
  · intro h; simp [Mutex.Unlock, h]

/-- Witness for the amended C2 at concrete connections. -/
theorem unlock_not_held_witness :
    Mutex.Unlock connUnlockErr 7 false =
      .ret (some ("failed to release lock: " ++ "net down")) false [.advisoryUnlock 7] ∧
    Mutex.Unlock connOk 7 false =
      .panicked "sync: unlock of unlocked mutex" false [.advisoryUnlock 7] :=
  ⟨(unlock_not_held connUnlockErr 7).1 "net down" rfl, (unlock_not_held connOk 7).2 rfl⟩

/-- Claim C3: in the Held state, `Unlock()` first issues the remote release
statement (it appears in the trace in every branch); on success it releases
the Local Guard and returns nil; on failure it returns the wrapped error and
leaves the Local Guard held. -/
theorem unlock_held (c : Conn) (id : Int) :
    (c.advisoryUnlockErr = none →
      Mutex.Unlock c id true = .ret none false [.advisoryUnlock id]) ∧
    (∀ e, c.advisoryUnlockErr = some e →
      Mutex.Unlock c id true =
        .ret (some ("failed to release lock: " ++ e)) true [.advisoryUnlock id]) := by
  constructor
  · intro h; simp [Mutex.Unlock, h]
  · intro e h; simp [Mutex.Unlock, h]

/-- Witness for C3 at concrete connections. -/
theorem unlock_held_witness :
    Mutex.Unlock connOk 7 true = .ret none false [.advisoryUnlock 7] ∧
    Mutex.Unlock connUnlockErr 7 true =
      .ret (some ("failed to release lock: " ++ "net down")) true [.advisoryUnlock 7] :=
  ⟨(unlock_held connOk 7).1 rfl, (unlock_held connUnlockErr 7).2 "net down" rfl⟩

/-- Claim C4: when the Local Guard is already held (local contention),
`TryLock()` returns `(false, nil)` immediately, issues no remote statement,
and leaves the guard state unchanged. -/
theorem tryLock_local_contention (c : Conn) (id : Int) :
    Mutex.TryLock c id true = .ret (false, none) true [] := by
  simp [Mutex.TryLock]

/-- Claim C5: once `TryLock()` holds the Local Guard, a remote `true` yields
`(true, nil)` with the guard kept; a remote `false` releases the guard and
yields `(false, nil)`; a remote error releases the guard and yields
`(false, error)`. -/
theorem tryLock_remote_outcomes (c : Conn) (id : Int) :
    (c.tryAdvisoryLock = .ok true →
      Mutex.TryLock c id false = .ret (true, none) true [.tryAdvisoryLock id]) ∧
    (c.tryAdvisoryLock = .ok false →
      Mutex.TryLock c id false = .ret (false, none) false [.tryAdvisoryLock id]) ∧
    (∀ e, c.tryAdvisoryLock = .error e →
      Mutex.TryLock c id false =
        .ret (false, some ("failed to attempt lock acquisition: " ++ e)) false
          [.tryAdvisoryLock id]) := by
  refine ⟨fun h => ?_, fun h => ?_, fun e h => ?_⟩ <;> simp [Mutex.TryLock, h]

/-- Witness for C5 at concrete connections covering all three outcomes. -/
theorem tryLock_remote_outcomes_witness :
    Mutex.TryLock connOk 9 false = .ret (true, none) true [.tryAdvisoryLock 9] ∧
    Mutex.TryLock connTryFalse 9 false = .ret (false, none) false [.tryAdvisoryLock 9] ∧
    Mutex.TryLock connTryErr 9 false =
      .ret (false, some ("failed to attempt lock acquisition: " ++ "query failed")) false
        [.tryAdvisoryLock 9] :=
  ⟨(tryLock_remote_outcomes connOk 9).1 rfl,
   (tryLock_remote_outcomes connTryFalse 9).2.1 rfl,
   (tryLock_remote_outcomes connTryErr 9).2.2 "query failed" rfl⟩

/-- Helper: the singleton returned by `getSingleton` carries the requested
identifier (whether found or freshly created). -/
theorem getSingleton_id (r : Registry) (id : Int) : (getSingleton r id).1.id = id := by
  unfold getSingleton
  cases h : r.singletons.find? (fun s => s.id == id) with
  | none => rfl
  | some s =>
    have := List.find?_some h
    simpa using this

/-- Claim C6: repeated `getSingleton` calls with the same identifier return
the identical `singleton` object and leave the registry unchanged; existing
guards are never removed; and a registry with at most one guard per
identifier keeps that property across any call. -/
theorem getSingleton_spec (r : Registry) (id : Int) (s : Singleton)
    (hs : s ∈ r.singletons)
    (hwf : r.singletons.Pairwise (fun a b => a.id ≠ b.id)) :
    (getSingleton (getSingleton r id).2 id).1 = (getSingleton r id).1 ∧
    (getSingleton (getSingleton r id).2 id).2 = (getSingleton r id).2 ∧
    s ∈ (getSingleton r id).2.singletons ∧
    (getSingleton r id).2.singletons.Pairwise (fun a b => a.id ≠ b.id) := by
  cases h : r.singletons.find? (fun s => s.id == id) with
  | some t =>
    refine ⟨?_, ?_, ?_, ?_⟩ <;> simp [getSingleton, h, hs, hwf]
  | none =>
    have hfresh : ∀ t ∈ r.singletons, t.id ≠ id := by
      intro t ht
      have := List.find?_eq_none.mp h t ht
      simpa using this
    refine ⟨?_, ?_, ?_, ?_⟩
    · simp [getSingleton, h]
    · simp [getSingleton, h]
    · simp [getSingleton, h, hs]
    · simp only [getSingleton, h]
      exact List.Pairwise.cons (fun t ht => (hfresh t ht).symm) hwf

/-- Witness for C6 on a concrete one-guard registry. -/
theorem getSingleton_spec_witness :
    ((⟨0, 7⟩ : Singleton) ∈ (Registry.mk [⟨0, 7⟩] 1).singletons ∧
       (Registry.mk [⟨0, 7⟩] 1).singletons.Pairwise (fun a b => a.id ≠ b.id)) ∧
    ((getSingleton (getSingleton (Registry.mk [⟨0, 7⟩] 1) 9).2 9).1 =
        (getSingleton (Registry.mk [⟨0, 7⟩] 1) 9).1 ∧
     (getSingleton (getSingleton (Registry.mk [⟨0, 7⟩] 1) 9).2 9).2 =
        (getSingleton (Registry.mk [⟨0, 7⟩] 1) 9).2 ∧
     (⟨0, 7⟩ : Singleton) ∈ (getSingleton (Registry.mk [⟨0, 7⟩] 1) 9).2.singletons ∧
     (getSingleton (Registry.mk [⟨0, 7⟩] 1) 9).2.singletons.Pairwise
        (fun a b => a.id ≠ b.id)) :=
  ⟨⟨by decide, by decide⟩,
   getSingleton_spec (Registry.mk [⟨0, 7⟩] 1) 9 ⟨0, 7⟩ (by decide) (by decide)⟩

/-- Helper: every handle returned by `NewMutex` has its singleton pointer
set, so `GetResourceID` never hits the nil pointer. -/
theorem newMutex_so_isSome (options : List MutexOption) (now : Int) (r : Registry)
    (m : Mutex) (r₁ : Registry) (h : NewMutex options now r = .ok (m, r₁)) :
    m.so.isSome := by
  unfold NewMutex at h
  cases hap : applyOptions options ⟨none, (), none⟩ r with
  | error e => rw [hap] at h; exact absurd h (by simp)
  | ok mr =>
    rw [hap] at h
    by_cases hc : mr.1.conn = none
    · simp [hc] at h
    · simp only [hc, if_false] at h
      cases hso : mr.1.so with
      | none =>
        simp only [hso] at h
        cases h
        simp
      | some s =>
        simp only [hso] at h
        cases h
        simp [hso]

/-- Claim C7: constructing with `WithResourceID 0` fails with an error, any
non-zero explicit identifier becomes the handle's resource identifier, and a
construction without an identifier derives it from the timestamp `now`. -/
theorem newMutex_resource_id (c : Conn) (k now : Int) (r : Registry) (hk : k ≠ 0) :
    NewMutex [WithConn c, WithResourceID 0] now r =
      .error "resource ID must be provided" ∧
    (∃ m r₁, NewMutex [WithConn c, WithResourceID k] now r = .ok (m, r₁) ∧
      m.GetResourceID = k) ∧
    (∃ m r₁, NewMutex [WithConn c] now r = .ok (m, r₁) ∧ m.GetResourceID = now) := by
  refine ⟨?_, ?_, ?_⟩
  · simp [NewMutex, applyOptions, WithConn, WithResourceID]
  · refine ⟨⟨some c, (), some (getSingleton r k).1⟩, (getSingleton r k).2, ?_, ?_⟩
    · simp [NewMutex, applyOptions, WithConn, WithResourceID, hk]
    · simp [Mutex.GetResourceID, getSingleton_id]
  · refine ⟨⟨some c, (), some (getSingleton r now).1⟩, (getSingleton r now).2, ?_, ?_⟩
    · simp [NewMutex, applyOptions, WithConn]
    · simp [Mutex.GetResourceID, getSingleton_id]

/-- Witness for C7 at a concrete connection, identifier and registry. -/
theorem newMutex_resource_id_witness :
    (7 : Int) ≠ 0 ∧
    (NewMutex [WithConn connOk, WithResourceID 0] 5 Registry.empty =
       .error "resource ID must be provided" ∧
     (∃ m r₁, NewMutex [WithConn connOk, WithResourceID 7] 5 Registry.empty =
        .ok (m, r₁) ∧ m.GetResourceID = 7) ∧
     (∃ m r₁, NewMutex [WithConn connOk] 5 Registry.empty = .ok (m, r₁) ∧
        m.GetResourceID = 5)) :=
  ⟨by decide, newMutex_resource_id connOk 7 5 Registry.empty (by decide)⟩

/-- Claim C8: `GetResourceID` is a pure projection of the handle (the model
maps it to a side-effect-free function, defined in every state), and on a
handle constructed with `WithResourceID k`, `k ≠ 0`, it returns exactly `k`. -/
theorem getResourceID_of_withResourceID (c : Conn) (k now : Int) (r : Registry)
    (m : Mutex) (r₁ : Registry) (hk : k ≠ 0)
    (h : NewMutex [WithConn c, WithResourceID k] now r = .ok (m, r₁)) :
    m.GetResourceID = k := by
  have hrun : NewMutex [WithConn c, WithResourceID k] now r =
      .ok (⟨some c, (), some (getSingleton r k).1⟩, (getSingleton r k).2) := by
    simp [NewMutex, applyOptions, WithConn, WithResourceID, hk]
  rw [h] at hrun
  cases hrun
  simp [Mutex.GetResourceID, getSingleton_id]

/-- Witness for C8 on a concrete construction. -/
theorem getResourceID_of_withResourceID_witness :
    (7 : Int) ≠ 0 ∧
    NewMutex [WithConn connOk, WithResourceID 7] 5 Registry.empty =
      .ok (⟨some connOk, (), some ⟨0, 7⟩⟩, ⟨[⟨0, 7⟩], 1⟩) ∧
    Mutex.GetResourceID ⟨some connOk, (), some ⟨0, 7⟩⟩ = 7 :=
  ⟨by decide, by rfl,
   getResourceID_of_withResourceID connOk 7 5 Registry.empty
     ⟨some connOk, (), some ⟨0, 7⟩⟩ ⟨[⟨0, 7⟩], 1⟩ (by decide) (by rfl)⟩

/-- Claim C9: the `SyncMutex` adapter is exactly the panics-on-error view of
the three core operations — it returns normally precisely when the underlying
call returns a nil error (with the same guard state and remote trace), panics
with exactly the underlying error otherwise, and for `TryLock` passes the
underlying boolean through; panics of the underlying call itself are passed
through unchanged, so the adapter adds no logic of its own. -/
theorem syncMutex_wraps (c : Conn) (id : Int) (g : Bool) :
    (∀ g₁ t, SyncMutex.Lock c id g = .ret () g₁ t ↔
      Mutex.Lock c id g = .ret none g₁ t) ∧
    (∀ e g₁ t, SyncMutex.Lock c id g = .panicked e g₁ t ↔
      Mutex.Lock c id g = .ret (some e) g₁ t) ∧
    (∀ g₁ t, SyncMutex.Unlock c id g = .ret () g₁ t ↔
      Mutex.Unlock c id g = .ret none g₁ t) ∧
    (∀ e g₁ t, SyncMutex.Unlock c id g = .panicked e g₁ t ↔
      (Mutex.Unlock c id g = .ret (some e) g₁ t ∨
        Mutex.Unlock c id g = .panicked e g₁ t)) ∧
    (∀ b g₁ t, SyncMutex.TryLock c id g = .ret b g₁ t ↔
      Mutex.TryLock c id g = .ret (b, none) g₁ t) ∧
    (∀ e g₁ t, SyncMutex.TryLock c id g = .panicked e g₁ t ↔
      ∃ b, Mutex.TryLock c id g = .ret (b, some e) g₁ t) := by
  obtain ⟨al, au, ta⟩ := c
  cases al <;> cases au <;> rcases ta with e | b <;> try cases b
  all_goals cases g
  all_goals refine ⟨?_, ?_, ?_, ?_, ?_, ?_⟩
  all_goals intros
  all_goals simp [SyncMutex.Lock, SyncMutex.Unlock, SyncMutex.TryLock,
    Mutex.Lock, Mutex.Unlock, Mutex.TryLock]

/-- Witness for C9: the adapter's `Lock` returns normally on a successful
acquisition. -/
theorem syncMutex_wraps_witness :
    SyncMutex.Lock connOk 42 false = .ret () true [.advisoryLock 42] :=
  ((syncMutex_wraps connOk 42 false).1 true [.advisoryLock 42]).mpr rfl

/-- Helper: applying an option list that starts with a successfully applied
prefix continues from the prefix's resulting configuration and registry. -/
theorem applyOptions_append_ok (pre rest : List MutexOption) (m₀ m : Mutex)
    (r r₁ : Registry) :
    applyOptions pre m₀ r = .ok (m, r₁) →
    applyOptions (pre ++ rest) m₀ r = applyOptions rest m r₁ := by
  induction pre generalizing m₀ r with
  | nil =>
    intro h
    simp [applyOptions] at h
    rw [h.1, h.2]
    rfl
  | cons o' os' ih =>
    intro h
    cases h' : o' m₀ r with
    | error e => simp [applyOptions, h'] at h
    | ok mr =>
      simp only [applyOptions, h'] at h
      simp only [List.cons_append, applyOptions, h']
      exact ih mr.1 mr.2 h

/-- Claim C10: a construction failure is returned, never panicked — whenever
`NewMutex` fails, `NewSyncMutex` returns the same error; and `NewMutex`
stops at the first failing option: the failing option's error is returned
regardless of the later options and of the timestamp (no later option is
applied and no default identifier is generated). -/
theorem construction_error_propagates (options pre : List MutexOption)
    (o : MutexOption) (os : List MutexOption) (now now' : Int) (r r' : Registry)
    (m : Mutex) (r₁ : Registry) (e e' : String)
    (hfail : NewMutex options now r = .error e)
    (hpre : applyOptions pre ⟨none, (), none⟩ r' = .ok (m, r₁))
    (ho : o m r₁ = .error e') :
    NewSyncMutex options now r = .error e ∧
    NewMutex (pre ++ o :: os) now' r' = .error e' ∧
    NewSyncMutex (pre ++ o :: os) now' r' = .error e' := by
  have happ : applyOptions (pre ++ o :: os) ⟨none, (), none⟩ r' = .error e' := by
    rw [applyOptions_append_ok pre (o :: os) ⟨none, (), none⟩ m r' r₁ hpre]
    simp [applyOptions, ho]
  refine ⟨?_, ?_, ?_⟩
  · simp [NewSyncMutex, hfail]
  · simp [NewMutex, happ]
  · simp [NewSyncMutex, NewMutex, happ]

/-- Witness for C10: a missing connection and a zero resource identifier at
concrete inputs. -/
theorem construction_error_propagates_witness :
    NewSyncMutex [] 5 Registry.empty = .error "database connection must be provided" ∧
    NewMutex [WithConn connOk, WithResourceID 0] 6 Registry.empty =
      .error "resource ID must be provided" ∧
    NewSyncMutex [WithConn connOk, WithResourceID 0] 6 Registry.empty =
      .error "resource ID must be provided" :=
  construction_error_propagates [] [WithConn connOk] (WithResourceID 0) [] 5 6
    Registry.empty Registry.empty ⟨some connOk, (), none⟩ Registry.empty
    "database connection must be provided" "resource ID must be provided"
    (by rfl) (by rfl) (by rfl)

end PgxMutex
